import Mathlib

/-!
Verification of the Smart-Study-Planner repository.

The deterministic core of the repository is `create_timetable_direct` in
`agents.py`: it flattens a syllabus (subject → topics) into an ordered list of
(subject, topic) pairs and spreads it over the days remaining until an exam
date, appending trailing revision days.  This file embeds that function, the
quiz-scoring arithmetic of `display_enhanced_quiz_results` in `fileapp.py`,
and the JSON-fallback wrappers `run_timetable_planner` and
`run_question_generation_agent`, and proves or refutes the specification's
claims about them.

The date arithmetic `(target - today).days` of the source is modelled by an
integer parameter `delta` holding that signed day difference; everything
downstream of `days = max(1, delta)` is embedded verbatim.
-/

namespace SmartStudyPlanner

/-- A syllabus: ordered mapping from subject name to its ordered topic list
(`syllabus.items()` order in the source). -/
abbrev Syllabus := List (String × List String)

/-- `topic_list = [(subject, topic) for subject, topics in syllabus.items() for topic in topics]`. -/
def topicList (s : Syllabus) : List (String × String) :=
  (s.map (fun p => p.2.map (fun t => (p.1, t)))).flatten

/-- `total_topics = len(topic_list)`. -/
def total_topics (s : Syllabus) : Nat := (topicList s).length

/-- `days = max(1, (target - today).days)`, with `delta` the signed day difference. -/
def days (delta : Int) : Nat := (max 1 delta).toNat

/-- `revision_days = max(1, days // 7)`. -/
def revision_days (delta : Int) : Nat := max 1 (days delta / 7)

/-- `study_days = days - revision_days` (never negative, see `study_days_nonneg_int`). -/
def study_days (delta : Int) : Nat := days delta - revision_days delta

/-- `topics_per_day = max(1, total_topics // study_days) if study_days > 0 else total_topics`. -/
def topics_per_day (delta : Int) (s : Syllabus) : Nat :=
  if 0 < study_days delta then max 1 (total_topics s / study_days delta)
  else total_topics s

/-- One topic assignment inside a study day: the dict
`{"subject": ..., "topic": ..., "suggested_hours": ...}`. -/
structure TopicAssignment where
  subject : String
  topic : String
  suggested_hours : Nat
deriving DecidableEq

/-- A plan entry: either `{"day": d, "type": "study", "topics": [...]}` or
`{"day": d, "type": "revision", "topics": "..."}`. -/
inductive DayEntry where
  | study (day : Nat) (topics : List TopicAssignment)
  | revision (day : Nat) (topics : String)
deriving DecidableEq

/-- `{"subject": subject, "topic": topic, "suggested_hours": 2 if subject.lower() != "essay" else 1}`. -/
def mkAssignment (p : String × String) : TopicAssignment :=
  { subject := p.1, topic := p.2,
    suggested_hours := if p.1.toLower ≠ "essay" then 2 else 1 }

/-- The slice `topic_list[start_idx:end_idx]` for study-day window `i`, with
`start_idx = i * tpd` and `end_idx = min((i + 1) * tpd, total_topics)`. -/
def studyWindow (s : Syllabus) (tpd i : Nat) : List (String × String) :=
  ((topicList s).drop (i * tpd)).take (min ((i + 1) * tpd) (total_topics s) - i * tpd)

/-- One iteration of the `for i in range(study_days)` loop: an entry is
appended only when the slice `day_plan` is non-empty. -/
def studyEmit (s : Syllabus) (tpd i : Nat) : Option DayEntry :=
  if (studyWindow s tpd i).isEmpty then none
  else some (DayEntry.study (i + 1) ((studyWindow s tpd i).map mkAssignment))

/-- One iteration of the `for j in range(revision_days)` loop:
`{"day": study_days + j + 1, "type": "revision", "topics": "Revise all covered topics"}`. -/
def revisionEntry (delta : Int) (j : Nat) : DayEntry :=
  DayEntry.revision (study_days delta + j + 1) "Revise all covered topics"

/-- The plan built by the two loops, for a given `topics_per_day` value. -/
def buildPlan (delta : Int) (s : Syllabus) (tpd : Nat) : List DayEntry :=
  (List.range (study_days delta)).filterMap (studyEmit s tpd) ++
  (List.range (revision_days delta)).map (revisionEntry delta)

/-- `create_timetable_direct(syllabus, end_date)` from `agents.py`, with the
parsed date difference supplied as `delta`. -/
def create_timetable_direct (delta : Int) (s : Syllabus) : List DayEntry :=
  buildPlan delta s (topics_per_day delta s)

/-- Division guarded against a zero divisor, used to show the source's
division is never evaluated with `study_days == 0`. -/
def checkedDiv (a b : Nat) : Option Nat := if b = 0 then none else some (a / b)

/-- `create_timetable_direct` with its single division routed through
`checkedDiv`: returns `none` exactly when a division by zero would occur. -/
def create_timetable_checked (delta : Int) (s : Syllabus) : Option (List DayEntry) :=
  if 0 < study_days delta then
    (checkedDiv (total_topics s) (study_days delta)).map
      (fun q => buildPlan delta s (max 1 q))
  else some (buildPlan delta s (total_topics s))

/-! Observation functions on plans. -/

/-- Whether an entry has `"type": "study"`. -/
def isStudy : DayEntry → Bool
  | .study _ _ => true
  | .revision _ _ => false

/-- Whether an entry has `"type": "revision"`. -/
def isRevision : DayEntry → Bool
  | .study _ _ => false
  | .revision _ _ => true

/-- Number of study-day entries in a plan. -/
def countStudy (plan : List DayEntry) : Nat := plan.countP isStudy

/-- Number of revision-day entries in a plan. -/
def countRevision (plan : List DayEntry) : Nat := plan.countP isRevision

/-- The `"day"` indices of a plan, in list order. -/
def daysOf (plan : List DayEntry) : List Nat :=
  plan.map (fun e => match e with
    | .study d _ => d
    | .revision d _ => d)

/-- Total number of topic assignments across all study-day entries. -/
def sumStudyTopics (plan : List DayEntry) : Nat :=
  (plan.map (fun e => match e with
    | .study _ ts => ts.length
    | .revision _ _ => 0)).sum

/-- The `"topics"` strings of the revision-day entries, in list order. -/
def revisionLabels (plan : List DayEntry) : List String :=
  plan.filterMap (fun e => match e with
    | .study _ _ => none
    | .revision _ l => some l)

/-- Modelled from the spec: the suggested-hours heuristic as §4.1 step 7 words
it — 1 hour when the subject equals "essay" case-insensitively, else 2. -/
def specSuggestedHours (subject : String) : Nat :=
  if subject.toLower = "essay" then 1 else 2

/-- Whether an entry satisfies the per-assignment hours rule and, for revision
entries, carries the fixed label. -/
def hoursOk : DayEntry → Bool
  | .study _ ts => ts.all (fun a => a.suggested_hours == specSuggestedHours a.subject)
  | .revision _ _ => true

/-! Quiz scoring, from `display_enhanced_quiz_results` in `fileapp.py`. -/

/-- One quiz question as consumed by the scoring loop. -/
structure Question where
  question : String
  options : List String
  answer : String
  topic : String
deriving DecidableEq

/-- The scoring loop: `score += 1` for each index `idx` where
`user_answers.get(f"q_{idx}", "") == question.get('answer', '')`. -/
def quizScore (questions : List Question) (user_answers : Nat → String) : Nat :=
  questions.enum.countP (fun p => user_answers p.1 == p.2.answer)

/-- `percentage = (score / total_questions) * 100`, over exact rationals. -/
def quizPercentage (questions : List Question) (user_answers : Nat → String) : ℚ :=
  (quizScore questions user_answers : ℚ) / (questions.length : ℚ) * 100

/-- The grade tier: `"A"` if `percentage >= 80`, else `"B"` if
`percentage >= 60`, else `"C"`. -/
def quizGrade (questions : List Question) (user_answers : Nat → String) : String :=
  if 80 ≤ quizPercentage questions user_answers then "A"
  else if 60 ≤ quizPercentage questions user_answers then "B"
  else "C"

/-! The JSON-fallback wrappers from `agents.py`, abstracted over the JSON
parser (`json.loads` succeeding is `some`, `JSONDecodeError` is `none`). -/

/-- Result type of `run_timetable_planner`: a parsed structure or the raw
response text. -/
inductive TimetableResponse (α : Type) where
  | parsed (value : α)
  | raw (text : String)
deriving DecidableEq

/-- `run_timetable_planner`, given the gateway's string `result`: returns
`json.loads(result)` when it parses, otherwise the raw string. -/
def run_timetable_planner {α : Type} (parseJson : String → Option α)
    (result : String) : TimetableResponse α :=
  match parseJson result with
  | some v => TimetableResponse.parsed v
  | none => TimetableResponse.raw result

/-- `run_question_generation_agent`, given the generated string `result`:
returns the parsed value, or `None` on a `JSONDecodeError`. -/
def run_question_generation_agent {α : Type} (parseJson : String → Option α)
    (result : String) : Option α :=
  match parseJson result with
  | some v => some v
  | none => none

/-! Helper lemmas about the study-day windows. -/

/-- The source's slice `topic_list[i*tpd : min((i+1)*tpd, total)]` is the
plain window `drop (i*tpd) |>.take tpd` of the flattened list. -/
lemma studyWindow_eq_take (s : Syllabus) (tpd i : Nat) :
    studyWindow s tpd i = ((topicList s).drop (i * tpd)).take tpd := by
  unfold studyWindow
  rw [List.take_eq_take]
  have hlen : ((topicList s).drop (i * tpd)).length = total_topics s - i * tpd := by
    rw [List.length_drop]; rfl
  rw [hlen]
  have hmul : (i + 1) * tpd = i * tpd + tpd := by ring
  omega

/-- Concatenating `n` consecutive windows of width `w` recovers the prefix of
length `n * w`. -/
lemma flatten_windows {α : Type} (L : List α) (w : Nat) :
    ∀ n, ((List.range n).map (fun i => (L.drop (i * w)).take w)).flatten = L.take (n * w) := by
  intro n
  induction n with
  | zero => simp
  | succ n ih =>
      rw [List.range_succ, List.map_append, List.flatten_append, ih]
      simp only [List.map_cons, List.map_nil, List.flatten_cons, List.flatten_nil,
        List.append_nil]
      rw [Nat.succ_mul, List.take_add]

/-- `sumStudyTopics` distributes over list append. -/
lemma sumStudyTopics_append (a b : List DayEntry) :
    sumStudyTopics (a ++ b) = sumStudyTopics a + sumStudyTopics b := by
  unfold sumStudyTopics
  rw [List.map_append, List.sum_append]

/-- The study-day loop contributes exactly the window lengths to the topic
count: skipped empty windows contribute zero either way. -/
lemma sumStudyTopics_filterMap (s : Syllabus) (tpd : Nat) (l : List Nat) :
    sumStudyTopics (l.filterMap (studyEmit s tpd)) =
      (l.map (fun i => (studyWindow s tpd i).length)).sum := by
  induction l with
  | nil => rfl
  | cons i l ih =>
      by_cases h : (studyWindow s tpd i).isEmpty
      · have he : studyEmit s tpd i = none := by
          unfold studyEmit; rw [if_pos h]
        have hlen : (studyWindow s tpd i).length = 0 := by
          rw [List.isEmpty_iff] at h; rw [h]; rfl
        simp only [List.filterMap_cons, he, List.map_cons, List.sum_cons, hlen]
        rw [ih, Nat.zero_add]
      · have he : studyEmit s tpd i =
            some (DayEntry.study (i + 1) ((studyWindow s tpd i).map mkAssignment)) := by
          unfold studyEmit; rw [if_neg h]
        simp only [List.filterMap_cons, he, List.map_cons, List.sum_cons]
        unfold sumStudyTopics at ih ⊢
        simp only [List.map_cons, List.sum_cons, List.length_map]
        rw [ih]

/-- Revision entries carry no topic assignments. -/
lemma sumStudyTopics_revision (delta : Int) (l : List Nat) :
    sumStudyTopics (l.map (revisionEntry delta)) = 0 := by
  induction l with
  | nil => rfl
  | cons j l ih =>
      unfold sumStudyTopics at ih ⊢
      rw [List.map_cons, List.map_cons, List.sum_cons, ih]
      rfl

/-- The total number of topic assignments in the emitted plan equals the
length of the covered prefix `min (study_days * topics_per_day) total_topics`
of the flattened topic list. -/
lemma sumStudyTopics_create (delta : Int) (s : Syllabus) :
    sumStudyTopics (create_timetable_direct delta s) =
      min (study_days delta * topics_per_day delta s) (total_topics s) := by
  unfold create_timetable_direct buildPlan
  rw [sumStudyTopics_append, sumStudyTopics_revision, Nat.add_zero,
    sumStudyTopics_filterMap]
  have hwin : ∀ i, (studyWindow s (topics_per_day delta s) i).length =
      (((topicList s).drop (i * topics_per_day delta s)).take (topics_per_day delta s)).length := by
    intro i; rw [studyWindow_eq_take]
  calc ((List.range (study_days delta)).map
          (fun i => (studyWindow s (topics_per_day delta s) i).length)).sum
      = ((List.range (study_days delta)).map
          (fun i => (((topicList s).drop (i * topics_per_day delta s)).take
            (topics_per_day delta s)).length)).sum := by
        exact congrArg List.sum (List.map_congr_left (fun i _ => hwin i))
    _ = (((List.range (study_days delta)).map
          (fun i => ((topicList s).drop (i * topics_per_day delta s)).take
            (topics_per_day delta s))).map List.length).sum := by
        rw [List.map_map]; rfl
    _ = (((List.range (study_days delta)).map
          (fun i => ((topicList s).drop (i * topics_per_day delta s)).take
            (topics_per_day delta s))).flatten).length := by
        rw [List.length_flatten]
    _ = ((topicList s).take (study_days delta * topics_per_day delta s)).length := by
        rw [flatten_windows]
    _ = min (study_days delta * topics_per_day delta s) (total_topics s) := by
        rw [List.length_take]; rfl

/-- Concrete syllabus with a single subject and seven topics. -/
def exS7 : Syllabus := [("m", ["a", "b", "c", "d", "e", "f", "g"])]

/-- Claim C1 (counterexample): with 7 topics and a 4-day horizon the plan
assigns only 6 topics — `7 // 3 = 2` topics per day over 3 study days covers
6 of the 7, and the last topic is silently dropped. -/
theorem claim_C1_cex :
    sumStudyTopics (create_timetable_direct 4 exS7) = 6 ∧
      total_topics exS7 = 7 ∧ 6 ≠ 7 := by
  refine ⟨by rfl, by rfl, by omega⟩

/-- Claim C1 (amended): the sum of topics across all study-day entries equals
`min (study_days * topics_per_day) total_topics`, the length of the covered
prefix of the flattened topic list; it equals `total_topics` only when
`study_days * topics_per_day ≥ total_topics`, and the remaining
`total_topics - study_days * topics_per_day` trailing topics are dropped
otherwise (no topic is ever duplicated). -/
theorem claim_C1_amended (delta : Int) (s : Syllabus) :
    sumStudyTopics (create_timetable_direct delta s) =
      min (study_days delta * topics_per_day delta s) (total_topics s) :=
  sumStudyTopics_create delta s

/-! Helper lemmas about the day indices of the emitted plan. -/

/-- Filtering `i < c` out of `range n` keeps the initial segment `range (min n c)`. -/
lemma filter_range_lt (n c : Nat) :
    (List.range n).filter (fun i => decide (i < c)) = List.range (min n c) := by
  induction n with
  | zero => simp
  | succ n ih =>
      rw [List.range_succ, List.filter_append, ih]
      by_cases h : n < c
      · have h1 : min (n + 1) c = n + 1 := by omega
        have h2 : min n c = n := by omega
        rw [h1, h2, List.range_succ]
        simp [h]
      · have h1 : min (n + 1) c = min n c := by omega
        rw [h1]
        simp [h]

/-- A window of positive width `w` starting at `i * w` is empty exactly when
the flattened topic list has at most `i * w` elements. -/
lemma studyWindow_isEmpty_iff (s : Syllabus) (w i : Nat) :
    (studyWindow s w i).isEmpty = true ↔ min w (total_topics s - i * w) = 0 := by
  rw [studyWindow_eq_take, List.isEmpty_iff, ← List.length_eq_zero,
    List.length_take, List.length_drop]
  rfl

/-- For positive window width, window emptiness is the complement of
`i * w < total_topics`. -/
lemma filter_window (s : Syllabus) (w : Nat) (hw : 0 < w) (l : List Nat) :
    l.filter (fun i => !(studyWindow s w i).isEmpty) =
      l.filter (fun i => decide (i * w < total_topics s)) := by
  apply List.filter_congr
  intro i _
  by_cases h : total_topics s ≤ i * w
  · have ht : (studyWindow s w i).isEmpty = true :=
      (studyWindow_isEmpty_iff s w i).mpr (by omega)
    rw [ht, Bool.not_true]
    exact (decide_eq_false (by omega)).symm
  · have hf : (studyWindow s w i).isEmpty = false := by
      cases hb : (studyWindow s w i).isEmpty
      · rfl
      · have := (studyWindow_isEmpty_iff s w i).mp hb
        omega
    rw [hf, Bool.not_false]
    exact (decide_eq_true (by omega)).symm

/-- The indices with a non-empty window form an initial segment of
`range n`: `i * w < T` is downward closed in `i`. -/
lemma filter_range_mul (n w T : Nat) (hw : 0 < w) :
    (List.range n).filter (fun i => decide (i * w < T)) =
      List.range (min n ((T + w - 1) / w)) := by
  have hc : ∀ i : Nat, (i * w < T) ↔ i < (T + w - 1) / w := by
    intro i
    have h1 : i < (T + w - 1) / w ↔ (i + 1) * w ≤ T + w - 1 := by
      rw [Nat.lt_iff_add_one_le, Nat.le_div_iff_mul_le hw]
    rw [h1, Nat.add_mul, Nat.one_mul]
    omega
  have hp : (fun i => decide (i * w < T)) = fun i => decide (i < (T + w - 1) / w) := by
    funext i
    rw [decide_eq_decide]
    exact hc i
  rw [hp, filter_range_lt]

/-- The `"day"` indices contributed by the study loop are the successor of
each loop index whose window is non-empty. -/
lemma daysOf_filterMap (s : Syllabus) (w : Nat) (l : List Nat) :
    daysOf (l.filterMap (studyEmit s w)) =
      (l.filter (fun i => !(studyWindow s w i).isEmpty)).map (fun i => i + 1) := by
  induction l with
  | nil => rfl
  | cons i l ih =>
      by_cases h : (studyWindow s w i).isEmpty
      · have he : studyEmit s w i = none := by
          unfold studyEmit; rw [if_pos h]
        simp only [List.filterMap_cons, he, List.filter_cons, h, Bool.not_true,
          Bool.false_eq_true, if_false]
        exact ih
      · have hf : (studyWindow s w i).isEmpty = false := by
          cases hb : (studyWindow s w i).isEmpty
          · rfl
          · exact absurd hb h
        have he : studyEmit s w i =
            some (DayEntry.study (i + 1) ((studyWindow s w i).map mkAssignment)) := by
          unfold studyEmit; rw [if_neg h]
        simp only [List.filterMap_cons, he, List.filter_cons, hf, Bool.not_false,
          if_true]
        unfold daysOf at ih ⊢
        simp only [List.map_cons]
        rw [ih]

/-- The `"day"` indices contributed by the revision loop. -/
lemma daysOf_revision (delta : Int) (l : List Nat) :
    daysOf (l.map (revisionEntry delta)) =
      l.map (fun j => study_days delta + j + 1) := by
  unfold daysOf revisionEntry
  rw [List.map_map]
  rfl

/-- Any entry produced by `studyEmit` is a study entry over a non-empty
window. -/
lemma studyEmit_eq_some (s : Syllabus) (w i : Nat) (e : DayEntry)
    (h : studyEmit s w i = some e) :
    e = DayEntry.study (i + 1) ((studyWindow s w i).map mkAssignment) ∧
      (studyWindow s w i).isEmpty = false := by
  unfold studyEmit at h
  by_cases hw : (studyWindow s w i).isEmpty
  · rw [if_pos hw] at h
    exact absurd h (by simp)
  · rw [if_neg hw] at h
    have hf : (studyWindow s w i).isEmpty = false := by
      cases hb : (studyWindow s w i).isEmpty
      · rfl
      · exact absurd hb hw
    injection h with h1
    exact ⟨h1.symm, hf⟩

/-- The number of study entries in the plan is the length of the study part. -/
lemma countStudy_create (delta : Int) (s : Syllabus) :
    countStudy (create_timetable_direct delta s) =
      ((List.range (study_days delta)).filterMap
        (studyEmit s (topics_per_day delta s))).length := by
  unfold create_timetable_direct buildPlan countStudy
  rw [List.countP_append]
  have hA : ∀ e ∈ (List.range (study_days delta)).filterMap
      (studyEmit s (topics_per_day delta s)), isStudy e = true := by
    intro e he
    rcases List.mem_filterMap.mp he with ⟨i, _, hi⟩
    rcases studyEmit_eq_some _ _ _ _ hi with ⟨h1, _⟩
    rw [h1]
    rfl
  have hB : ((List.range (revision_days delta)).map (revisionEntry delta)).countP
      isStudy = 0 := by
    rw [List.countP_eq_zero]
    intro e he
    rcases List.mem_map.mp he with ⟨j, _, hj⟩
    rw [← hj]
    simp [revisionEntry, isStudy]
  rw [hB, Nat.add_zero, List.countP_eq_length.mpr hA]

/-- Positive width whenever the study loop runs. -/
lemma one_le_tpd (delta : Int) (s : Syllabus) (h : 0 < study_days delta) :
    0 < topics_per_day delta s := by
  unfold topics_per_day
  rw [if_pos h]
  exact Nat.le_max_left 1 _

/-- The study part's day indices are the contiguous range `1..k` where `k` is
the number of emitted study entries. -/
lemma daysOf_studyPart (delta : Int) (s : Syllabus) :
    daysOf ((List.range (study_days delta)).filterMap
        (studyEmit s (topics_per_day delta s))) =
      (List.range (((List.range (study_days delta)).filterMap
        (studyEmit s (topics_per_day delta s))).length)).map (fun i => i + 1) := by
  rcases Nat.eq_zero_or_pos (study_days delta) with h0 | hpos
  · rw [h0]
    rfl
  · have hw : 0 < topics_per_day delta s := one_le_tpd delta s hpos
    have hd : daysOf ((List.range (study_days delta)).filterMap
        (studyEmit s (topics_per_day delta s))) =
        (List.range (min (study_days delta)
          ((total_topics s + topics_per_day delta s - 1) / topics_per_day delta s))).map
          (fun i => i + 1) := by
      rw [daysOf_filterMap, filter_window s _ hw, filter_range_mul _ _ _ hw]
    have hlen : ((List.range (study_days delta)).filterMap
        (studyEmit s (topics_per_day delta s))).length =
        min (study_days delta)
          ((total_topics s + topics_per_day delta s - 1) / topics_per_day delta s) := by
      have hld := congrArg List.length hd
      unfold daysOf at hld
      rwa [List.length_map, List.length_map, List.length_range] at hld
    rw [hd, hlen]

/-- The full day-index identity for the emitted plan: study indices are
`1..k` for `k` emitted study entries, and revision indices continue from
`study_days + 1` (not from `k + 1`). -/
lemma daysOf_create_eq (delta : Int) (s : Syllabus) :
    daysOf (create_timetable_direct delta s) =
      (List.range (countStudy (create_timetable_direct delta s))).map (fun i => i + 1) ++
      (List.range (revision_days delta)).map (fun j => study_days delta + j + 1) := by
  rw [countStudy_create]
  unfold create_timetable_direct buildPlan
  unfold daysOf
  rw [List.map_append]
  have h1 := daysOf_studyPart delta s
  unfold daysOf at h1
  rw [h1]
  have h2 := daysOf_revision delta (List.range (revision_days delta))
  unfold daysOf at h2
  rw [h2]

/-- Claim C2 (counterexample): for the empty syllabus and a 7-day horizon the
plan's day indices are `[7]`, not the contiguous range `1..(0 + 1) = [1]`
asserted by the claim: the single revision day is emitted at index
`study_days + 1 = 7`, not immediately after the last emitted study entry. -/
theorem claim_C2_cex :
    daysOf (create_timetable_direct 7 []) ≠
      (List.range (countStudy (create_timetable_direct 7 []) +
        countRevision (create_timetable_direct 7 []))).map (fun i => i + 1) := by
  decide

/-- Claim C2 (amended): the study entries' day indices are exactly the
contiguous range `1..k` where `k` is the number of emitted study entries, but
the revision entries' indices are `study_days + 1 .. study_days +
revision_days`, continuing after the *computed* `study_days` rather than after
the last emitted study entry; when fewer than `study_days` study entries are
emitted (topics run out, or `study_days = 0`) the output has a gap in its day
indices (e.g. empty syllabus with `D = 7` yields one revision day at index 7,
and 3 topics with `D = 10` yield study days 1–3 and a revision day at 10). -/
theorem claim_C2_amended (delta : Int) (s : Syllabus) :
    daysOf (create_timetable_direct delta s) =
      (List.range (countStudy (create_timetable_direct delta s))).map (fun i => i + 1) ++
      (List.range (revision_days delta)).map (fun j => study_days delta + j + 1) :=
  daysOf_create_eq delta s

/-- Claim C3: the partitioner is total on all well-typed inputs: the day floor
guarantees `days ≥ 1`, and the variant whose single division is guarded
against a zero divisor never reports a division by zero and agrees with the
unguarded function — empty syllabi and non-positive day differences included. -/
theorem claim_C3 (delta : Int) (s : Syllabus) :
    1 ≤ days delta ∧
      create_timetable_checked delta s = some (create_timetable_direct delta s) := by
  constructor
  · unfold days
    omega
  · unfold create_timetable_checked create_timetable_direct topics_per_day checkedDiv
    by_cases h : 0 < study_days delta
    · rw [if_pos h, if_pos h, if_neg (by omega : ¬ study_days delta = 0)]
      rfl
    · rw [if_neg h, if_neg h]

/-- Claim C4 (counterexample): with one topic and `D = 1` (so
`study_days = 0`), the study loop runs zero times: no synthetic study day is
created and the topic is assigned nowhere, contradicting "every remaining
topic is assigned to a single synthetic study day". -/
theorem claim_C4_cex :
    countStudy (create_timetable_direct 1 [("m", ["a"])]) = 0 ∧
      total_topics [("m", ["a"])] = 1 ∧
      sumStudyTopics (create_timetable_direct 1 [("m", ["a"])]) = 0 := by
  refine ⟨by rfl, by rfl, by rfl⟩

/-- Claim C4 (amended): when `study_days = 0`, `topics_per_day` falls back to
`total_topics` and no division by zero occurs, but the study loop emits zero
study-day entries — all topics are dropped rather than assigned to a synthetic
day — and the revision days are emitted at indices `1..revision_days`. -/
theorem claim_C4_amended (delta : Int) (s : Syllabus) (h : study_days delta = 0) :
    create_timetable_direct delta s =
      (List.range (revision_days delta)).map
        (fun j => DayEntry.revision (j + 1) "Revise all covered topics") ∧
      topics_per_day delta s = total_topics s := by
  constructor
  · unfold create_timetable_direct buildPlan
    rw [h]
    simp only [List.range_zero, List.filterMap_nil, List.nil_append]
    unfold revisionEntry
    rw [h]
    simp only [Nat.zero_add]
  · unfold topics_per_day
    rw [if_neg (by omega)]

/-- Claim C4 (witness): the amended statement instantiated at `D = 1` with a
one-topic syllabus. -/
theorem claim_C4_amended_witness :
    create_timetable_direct 1 [("m", ["a"])] =
      (List.range (revision_days 1)).map
        (fun j => DayEntry.revision (j + 1) "Revise all covered topics") ∧
      topics_per_day 1 [("m", ["a"])] = total_topics [("m", ["a"])] :=
  claim_C4_amended 1 [("m", ["a"])] (by decide)

/-- Claim C9: the partitioner is a pure function of the syllabus and the day
difference — two calls with equal syllabus, equal end date, and the same
"today" produce identical plans. -/
theorem claim_C9 (d1 d2 : Int) (s1 s2 : Syllabus)
    (hd : d1 = d2) (hs : s1 = s2) :
    create_timetable_direct d1 s1 = create_timetable_direct d2 s2 := by
  rw [hd, hs]

/-- Claim C9 (witness): a concrete repeated call. -/
theorem claim_C9_witness :
    create_timetable_direct 10 [("m", ["a"])] =
      create_timetable_direct 10 [("m", ["a"])] :=
  claim_C9 10 10 [("m", ["a"])] [("m", ["a"])] rfl rfl

/-! Suggested-hours heuristic, revision count and labels, quiz scoring,
gateway fallbacks. -/

/-- The source's conditional `2 if subject.lower() != "essay" else 1` computes
the spec's hours rule. -/
lemma mkAssignment_hours (p : String × String) :
    (mkAssignment p).suggested_hours = specSuggestedHours p.1 := by
  unfold mkAssignment specSuggestedHours
  by_cases h : p.1.toLower = "essay"
  · rw [if_pos h, if_neg (not_not_intro h)]
  · rw [if_neg h, if_pos h]

/-- The subject of a built assignment is the pair's subject. -/
lemma mkAssignment_subject (p : String × String) :
    (mkAssignment p).subject = p.1 := rfl

/-- Mapping preserves emptiness. -/
lemma isEmpty_map {α β : Type} (f : α → β) (l : List α) :
    (l.map f).isEmpty = l.isEmpty := by
  cases l <;> rfl

/-- Claim C5: in every output plan, each topic assignment whose subject
lowercases to "essay" has `suggested_hours = 1` and every other assignment
has `suggested_hours = 2`, as checked by `hoursOk` built from the spec's
wording (`specSuggestedHours`). -/
theorem claim_C5 (delta : Int) (s : Syllabus) :
    (create_timetable_direct delta s).all hoursOk = true := by
  rw [List.all_eq_true]
  intro e he
  unfold create_timetable_direct buildPlan at he
  rcases List.mem_append.mp he with hA | hB
  · rcases List.mem_filterMap.mp hA with ⟨i, _, hi⟩
    rcases studyEmit_eq_some _ _ _ _ hi with ⟨h1, _⟩
    rw [h1]
    unfold hoursOk
    rw [List.all_eq_true]
    intro a ha
    rcases List.mem_map.mp ha with ⟨p, _, hp⟩
    rw [← hp, mkAssignment_hours, mkAssignment_subject]
    exact beq_self_eq_true _
  · rcases List.mem_map.mp hB with ⟨j, _, hj⟩
    rw [← hj]
    rfl

/-- Mapping a constant function over `range n` gives `n` copies. -/
lemma map_const_range {α : Type} (c : α) (n : Nat) :
    (List.range n).map (fun _ => c) = List.replicate n c := by
  induction n with
  | zero => rfl
  | succ n ih =>
      rw [List.range_succ, List.map_append, ih, List.replicate_succ' n c]
      rfl

/-- Claim C6: the plan contains exactly `max 1 (D / 7)` revision-day entries
(hence at least one), each carrying the fixed label
"Revise all covered topics", where `D = max(1, delta)` is the day floor. -/
theorem claim_C6 (delta : Int) (s : Syllabus) :
    countRevision (create_timetable_direct delta s) = max 1 (days delta / 7) ∧
      1 ≤ countRevision (create_timetable_direct delta s) ∧
      revisionLabels (create_timetable_direct delta s) =
        List.replicate (max 1 (days delta / 7)) "Revise all covered topics" := by
  have hcount : countRevision (create_timetable_direct delta s) = revision_days delta := by
    unfold create_timetable_direct buildPlan countRevision
    rw [List.countP_append]
    have hA : ((List.range (study_days delta)).filterMap
        (studyEmit s (topics_per_day delta s))).countP isRevision = 0 := by
      rw [List.countP_eq_zero]
      intro e he
      rcases List.mem_filterMap.mp he with ⟨i, _, hi⟩
      rcases studyEmit_eq_some _ _ _ _ hi with ⟨h1, _⟩
      rw [h1]
      simp [isRevision]
    have hB : ((List.range (revision_days delta)).map (revisionEntry delta)).countP
        isRevision = ((List.range (revision_days delta)).map (revisionEntry delta)).length := by
      rw [List.countP_eq_length]
      intro e he
      rcases List.mem_map.mp he with ⟨j, _, hj⟩
      rw [← hj]
      rfl
    rw [hA, hB, Nat.zero_add, List.length_map, List.length_range]
  have hlab : revisionLabels (create_timetable_direct delta s) =
      List.replicate (revision_days delta) "Revise all covered topics" := by
    unfold create_timetable_direct buildPlan revisionLabels
    rw [List.filterMap_append]
    have hA : ((List.range (study_days delta)).filterMap
        (studyEmit s (topics_per_day delta s))).filterMap (fun e => match e with
          | DayEntry.study _ _ => none
          | DayEntry.revision _ l => some l) = [] := by
      rw [List.filterMap_eq_nil_iff]
      intro e he
      rcases List.mem_filterMap.mp he with ⟨i, _, hi⟩
      rcases studyEmit_eq_some _ _ _ _ hi with ⟨h1, _⟩
      rw [h1]
    rw [hA, List.nil_append, List.filterMap_map]
    have hcomp : ((fun e => match e with
        | DayEntry.study _ _ => none
        | DayEntry.revision _ l => some l) ∘ revisionEntry delta) =
        fun _ : Nat => some "Revise all covered topics" := rfl
    rw [hcomp]
    have hfm : ∀ (n : Nat), (List.range n).filterMap
        (fun _ : Nat => some "Revise all covered topics") =
        (List.range n).map (fun _ => "Revise all covered topics") := by
      intro n
      induction (List.range n) with
      | nil => rfl
      | cons a l ih => rw [List.filterMap_cons_some, List.map_cons, ih]; rfl
    rw [hfm, map_const_range]
  refine ⟨hcount, ?_, hlab⟩
  rw [hcount]
  exact Nat.le_max_left 1 _

/-- Claim C7: with 5 questions and exactly 3 matching answers the computed
percentage is exactly 60 and the grade tier is "B" (the "A" branch requires
percentage ≥ 80, the "B" branch 60 ≤ percentage < 80). -/
theorem claim_C7 (qs : List Question) (ua : Nat → String)
    (h5 : qs.length = 5) (h3 : quizScore qs ua = 3) :
    quizPercentage qs ua = 60 ∧ quizGrade qs ua = "B" := by
  have hp : quizPercentage qs ua = 60 := by
    unfold quizPercentage
    rw [h5, h3]
    norm_num
  refine ⟨hp, ?_⟩
  unfold quizGrade
  rw [hp, if_neg (by norm_num), if_pos (by norm_num)]

/-- A concrete 5-question quiz. -/
def exQuiz : List Question :=
  [{ question := "q0", options := ["a", "b", "c", "d"], answer := "a", topic := "t0" },
   { question := "q1", options := ["a", "b", "c", "d"], answer := "a", topic := "t1" },
   { question := "q2", options := ["a", "b", "c", "d"], answer := "a", topic := "t2" },
   { question := "q3", options := ["a", "b", "c", "d"], answer := "a", topic := "t3" },
   { question := "q4", options := ["a", "b", "c", "d"], answer := "a", topic := "t4" }]

/-- Concrete user answers: correct on the first three questions only. -/
def exAnswers : Nat → String := fun i => if i < 3 then "a" else "z"

/-- Claim C7 (witness): the concrete quiz scores 3 of 5, percentage 60,
grade "B". -/
theorem claim_C7_witness :
    exQuiz.length = 5 ∧ quizScore exQuiz exAnswers = 3 ∧
      (quizPercentage exQuiz exAnswers = 60 ∧ quizGrade exQuiz exAnswers = "B") :=
  ⟨by rfl, by rfl, claim_C7 exQuiz exAnswers (by rfl) (by rfl)⟩

/-- Claim C8: when the response string fails to parse as JSON,
`run_timetable_planner` returns the raw text unchanged and
`run_question_generation_agent` returns the null result; neither propagates
the parse failure. -/
theorem claim_C8 {α : Type} (parseJson : String → Option α) (result : String)
    (h : parseJson result = none) :
    run_timetable_planner parseJson result = TimetableResponse.raw result ∧
      run_question_generation_agent parseJson result = none := by
  unfold run_timetable_planner run_question_generation_agent
  rw [h]
  exact ⟨rfl, rfl⟩

/-- Claim C8 (witness): a parser rejecting a concrete non-JSON string. -/
theorem claim_C8_witness :
    run_timetable_planner (fun _ => (none : Option Nat)) "not json" =
        TimetableResponse.raw "not json" ∧
      run_question_generation_agent (fun _ => (none : Option Nat)) "not json" = none :=
  claim_C8 (fun _ => (none : Option Nat)) "not json" rfl

/-- At most `study_days` study entries are ever emitted. -/
lemma countStudy_le (delta : Int) (s : Syllabus) :
    countStudy (create_timetable_direct delta s) ≤ study_days delta := by
  rw [countStudy_create]
  calc ((List.range (study_days delta)).filterMap
          (studyEmit s (topics_per_day delta s))).length
      ≤ (List.range (study_days delta)).length := List.length_filterMap_le _ _
    _ = study_days delta := List.length_range _

/-- Claim C10: every study entry carries a non-empty topic list, every
revision entry carries the fixed label, all study entries precede all
revision entries, and the day indices are strictly increasing in list
order. -/
theorem claim_C10 (delta : Int) (s : Syllabus) :
    ((create_timetable_direct delta s).all (fun e => match e with
        | DayEntry.study _ ts => !ts.isEmpty
        | DayEntry.revision _ l => l == "Revise all covered topics")) = true ∧
      (create_timetable_direct delta s).Pairwise
        (fun a b => isStudy a = true ∨ isRevision b = true) ∧
      (daysOf (create_timetable_direct delta s)).Pairwise (· < ·) := by
  have hk := countStudy_le delta s
  have hdays := daysOf_create_eq delta s
  have hA : ∀ e ∈ (List.range (study_days delta)).filterMap
      (studyEmit s (topics_per_day delta s)), isStudy e = true := by
    intro e he
    rcases List.mem_filterMap.mp he with ⟨i, _, hi⟩
    rcases studyEmit_eq_some _ _ _ _ hi with ⟨h1, _⟩
    rw [h1]
    rfl
  have hB : ∀ e ∈ (List.range (revision_days delta)).map (revisionEntry delta),
      isRevision e = true := by
    intro e he
    rcases List.mem_map.mp he with ⟨j, _, hj⟩
    rw [← hj]
    rfl
  refine ⟨?_, ?_, ?_⟩
  · rw [List.all_eq_true]
    intro e he
    unfold create_timetable_direct buildPlan at he
    rcases List.mem_append.mp he with hsA | hsB
    · rcases List.mem_filterMap.mp hsA with ⟨i, _, hi⟩
      rcases studyEmit_eq_some _ _ _ _ hi with ⟨h1, h2⟩
      rw [h1]
      show (!((studyWindow s (topics_per_day delta s) i).map mkAssignment).isEmpty) = true
      rw [isEmpty_map, h2]
      rfl
    · rcases List.mem_map.mp hsB with ⟨j, _, hj⟩
      rw [← hj]
      rfl
  · unfold create_timetable_direct buildPlan
    rw [List.pairwise_append]
    refine ⟨?_, ?_, ?_⟩
    · exact List.pairwise_of_forall_mem_list
        (fun a ha _ _ => Or.inl (hA a ha))
    · exact List.pairwise_of_forall_mem_list
        (fun _ _ b hb => Or.inr (hB b hb))
    · intro a ha b hb
      exact Or.inl (hA a ha)
  · rw [hdays, List.pairwise_append]
    refine ⟨?_, ?_, ?_⟩
    · rw [List.pairwise_map]
      exact (List.pairwise_lt_range _).imp (fun h => by omega)
    · rw [List.pairwise_map]
      exact (List.pairwise_lt_range _).imp (fun h => by omega)
    · intro x hx y hy
      rcases List.mem_map.mp hx with ⟨i, hi, hix⟩
      rcases List.mem_map.mp hy with ⟨j, hj, hjy⟩
      rw [List.mem_range] at hi hj
      omega

end SmartStudyPlanner
